import Mathlib

/-!
Verification of the HackUTA-2025 syllabus-ingestion pipeline.

Python strings are modelled as `List Char`; Python machine behaviour that the
claims depend on (string `strip`/`lower`/slicing, `json.loads` on the JSON
subset the pipeline produces, list `sort` keyed by a string field) is embedded
as executable Lean definitions.  Each repository function under scrutiny
(`main.extract_text`, `ai_ml/text_extraction.extract_text_from_pdf`,
the response-normalization code of `ai_ml/gemini_extractor.extract_syllabus_info`
and `gemini_processor.analyze_syllabus_text`,
`ai_ml/study_estimator.estimate_study_schedule` with its helpers,
`ai_ml/gemini_extractor.validate_extraction_data`, and the upload guards of
`ai_ml/api.extract_syllabus` and `legacy/backend/routers/upload.upload_syllabus`)
is translated into a definition of the same name.
-/

namespace Syllabus

/-- Shorthand: the character list of a string literal. -/
def S (s : String) : List Char := s.data

/-- Whitespace for Python `str.strip()` with no arguments: space, tab,
newline, carriage return, vertical tab, form feed. -/
def pyWs (c : Char) : Bool :=
  c = ' ' || c = '\t' || c = '\n' || c = '\r' || c = '\x0b' || c = '\x0c'

/-- Drop trailing characters satisfying `pyWs` (right half of `str.strip()`). -/
def dropTrailWs (l : List Char) : List Char :=
  (l.reverse.dropWhile pyWs).reverse

/-- Python `str.strip()`: remove leading and trailing whitespace. -/
def pystrip (l : List Char) : List Char :=
  dropTrailWs (l.dropWhile pyWs)

/-- Python `str.lower()` restricted to ASCII letters (the filenames the
claims touch are ASCII). -/
def pylower (l : List Char) : List Char := l.map Char.toLower

/-- Python string `<=`: lexicographic comparison by code point. -/
def strLe : List Char → List Char → Bool
  | [], _ => true
  | _ :: _, [] => false
  | a :: as, b :: bs =>
    if a.toNat < b.toNat then true
    else if b.toNat < a.toNat then false
    else strLe as bs

/-- Python slice `l[:-n]` for `n ≤ len l`: drop the last `n` characters. -/
def dropRight (n : Nat) (l : List Char) : List Char :=
  l.take (l.length - n)

/-- JSON values, as produced by `json.loads` on the replies this pipeline
handles (objects, arrays, strings, integers, booleans, null). -/
inductive JVal where
  | jnull : JVal
  | jbool : Bool → JVal
  | jnum : Int → JVal
  | jstr : List Char → JVal
  | jarr : List JVal → JVal
  | jobj : List (List Char × JVal) → JVal

/-- JSON insignificant whitespace (RFC 8259, as accepted by `json.loads`). -/
def jsonWs (c : Char) : Bool :=
  c = ' ' || c = '\t' || c = '\n' || c = '\r'

/-- Skip insignificant whitespace. -/
def skipWs (cs : List Char) : List Char := cs.dropWhile jsonWs

/-- Parse the body of a JSON string after the opening quote.  Supports the
single-character escapes; `\uXXXX` escapes are outside the modelled subset
(none of the pipeline's data uses them).  Unescaped control characters are
rejected, as by strict-mode `json.loads`. -/
def parseStr : List Char → Option (List Char × List Char)
  | [] => none
  | '"' :: rest => some ([], rest)
  | '\\' :: e :: rest =>
    match (if e = '"' then some '"'
           else if e = '\\' then some '\\'
           else if e = '/' then some '/'
           else if e = 'n' then some '\n'
           else if e = 't' then some '\t'
           else if e = 'r' then some '\r'
           else if e = 'b' then some '\x08'
           else if e = 'f' then some '\x0c'
           else none) with
    | some c => (parseStr rest).map (fun p => (c :: p.1, p.2))
    | none => none
  | c :: rest =>
    if c.toNat < 32 then none
    else (parseStr rest).map (fun p => (c :: p.1, p.2))

/-- Parse a JSON integer (optional minus sign, digits, no leading zeros);
fractions and exponents are outside the modelled subset. -/
def parseNum (cs : List Char) : Option (Int × List Char) :=
  let (neg, cs') := match cs with
    | '-' :: rest => (true, rest)
    | _ => (false, cs)
  let digits := cs'.takeWhile Char.isDigit
  let rest := cs'.dropWhile Char.isDigit
  if digits = [] then none
  else if digits.head? = some '0' ∧ digits.length > 1 then none
  else if rest.head? = some '.' ∨ rest.head? = some 'e' ∨ rest.head? = some 'E' then none
  else
    let n : Nat := digits.foldl (fun acc d => acc * 10 + (d.toNat - 48)) 0
    some (if neg then -(n : Int) else (n : Int), rest)

mutual

/-- Parse one JSON value; `fuel` bounds recursion depth (one unit per
nesting level, so `length + 1` always suffices). -/
def parseVal : Nat → List Char → Option (JVal × List Char)
  | 0, _ => none
  | fuel + 1, cs =>
    match skipWs cs with
    | [] => none
    | c :: rest =>
      if c = 'n' then
        if (S "ull").isPrefixOf rest then some (.jnull, rest.drop 3) else none
      else if c = 't' then
        if (S "rue").isPrefixOf rest then some (.jbool true, rest.drop 3) else none
      else if c = 'f' then
        if (S "alse").isPrefixOf rest then some (.jbool false, rest.drop 4) else none
      else if c = '"' then
        (parseStr rest).map (fun p => (.jstr p.1, p.2))
      else if c = '{' then
        match skipWs rest with
        | '}' :: r => some (.jobj [], r)
        | r => (parseMembers fuel r).map (fun p => (.jobj p.1, p.2))
      else if c = '[' then
        match skipWs rest with
        | ']' :: r => some (.jarr [], r)
        | r => (parseElems fuel r).map (fun p => (.jarr p.1, p.2))
      else if c = '-' ∨ c.isDigit then
        (parseNum (c :: rest)).map (fun p => (.jnum p.1, p.2))
      else none

/-- Parse the members of a JSON object (after `{`, at least one member). -/
def parseMembers : Nat → List Char → Option (List (List Char × JVal) × List Char)
  | 0, _ => none
  | fuel + 1, cs =>
    match skipWs cs with
    | '"' :: rest =>
      match parseStr rest with
      | none => none
      | some (k, r1) =>
        match skipWs r1 with
        | ':' :: r2 =>
          match parseVal fuel r2 with
          | none => none
          | some (v, r3) =>
            match skipWs r3 with
            | ',' :: r4 => (parseMembers fuel r4).map (fun p => ((k, v) :: p.1, p.2))
            | '}' :: r4 => some ([(k, v)], r4)
            | _ => none
        | _ => none
    | _ => none

/-- Parse the elements of a JSON array (after `[`, at least one element). -/
def parseElems : Nat → List Char → Option (List JVal × List Char)
  | 0, _ => none
  | fuel + 1, cs =>
    match parseVal fuel cs with
    | none => none
    | some (v, r1) =>
      match skipWs r1 with
      | ',' :: r2 => (parseElems fuel r2).map (fun p => (v :: p.1, p.2))
      | ']' :: r2 => some ([v], r2)
      | _ => none

end

/-- Model of Python `json.loads`: parse one value and require only
whitespace to remain. -/
def jloads (cs : List Char) : Option JVal :=
  match parseVal (cs.length + 1) cs with
  | some (v, r) => if skipWs r = [] then some v else none
  | none => none

/-! ## Response normalization

`ai_ml/gemini_extractor.extract_syllabus_info` and
`gemini_processor.analyze_syllabus_text` share the same cleaning code:
strip whitespace, drop a leading fence only when it reads exactly
three backticks followed by the tag `json`, drop a trailing bare
fence, strip again.  The extractor then adds a brace-slice recovery pass;
the processor does not. -/

/-- The cleaning stage shared by both normalizers (gemini_extractor.py
lines 146-151, gemini_processor.py lines 107-112 of the translated
sources). -/
def fenceStrip (raw : List Char) : List Char :=
  let t0 := pystrip raw
  let t1 := if (S "```json").isPrefixOf t0 then t0.drop 7 else t0
  let t2 := if (S "```").isSuffixOf t1 then dropRight 3 t1 else t1
  pystrip t2

/-- First index of a character in a list (Python `str.find`, as an
`Option` instead of the -1 sentinel). -/
def firstIdx (c : Char) (l : List Char) : Option Nat :=
  l.findIdx? (· = c)

/-- Last index of a character in a list (Python `str.rfind`, as an
`Option` instead of the -1 sentinel). -/
def lastIdx (c : Char) (l : List Char) : Option Nat :=
  (l.reverse.findIdx? (· = c)).map (fun i => l.length - 1 - i)

/-- The diagnostic the `except json.JSONDecodeError as e` branch of
`extract_syllabus_info` raises: the f-string prose
`Failed to parse JSON response: ` followed by the rendering of `e`.
A `json.JSONDecodeError` renders as a kind phrase plus a position —
both vary with the input (a reply whose object breaks at offset 6
reports `(char 6)`, a stray comma reports an expecting-property-name
phrase) — but the rendering never embeds the document being parsed,
and the raw response itself is only written to the log, not to the
exception.  This constant renders the one failure every failing reply
in this file produces: a direct parse failing at the first character,
`Expecting value: line 1 column 1 (char 0)`.  Only the
input-independent prose prefix of the message is asserted in general;
no theorem claims the whole message is the same for every input. -/
def parseFailMsg : List Char :=
  S "Failed to parse JSON response: Expecting value: line 1 column 1 (char 0)"

/-- The JSON-recovery logic of `extract_syllabus_info`
(gemini_extractor.py lines 146-168): clean, direct parse, then on failure
slice from the first `'\x7b'` to the last `'\x7d'` inclusive and parse
that substring; raise when everything fails. -/
def normalize (raw : List Char) : Except (List Char) JVal :=
  let t := fenceStrip raw
  match jloads t with
  | some v => .ok v
  | none =>
    match firstIdx '{' t, lastIdx '}' t with
    | some s, some e =>
      if s < e + 1 then
        match jloads ((t.drop s).take (e + 1 - s)) with
        | some v => .ok v
        | none => .error parseFailMsg
      else .error parseFailMsg
    | _, _ => .error parseFailMsg

/-- The JSON-parsing logic of `gemini_processor.analyze_syllabus_text`
(lines 105-121): identical cleaning, direct parse only — no brace-slice
recovery. -/
def analyze_syllabus_text (raw : List Char) : Except (List Char) JVal :=
  match jloads (fenceStrip raw) with
  | some v => .ok v
  | none => .error parseFailMsg

/-- Leading-fence removal of `re.sub(r'^```(?:json)?\s*', '', t)` on a
text already known to start with three backticks: drop the backticks, an
optional `json` tag, and following whitespace. -/
def reStripLeadFence (t : List Char) : List Char :=
  let t1 := t.drop 3
  let t2 := if (S "json").isPrefixOf t1 then t1.drop 4 else t1
  t2.dropWhile pyWs

/-- Trailing-fence removal of `re.sub(r'\s*```$', '', t)`: when the text
ends with three backticks, remove them and the whitespace run before
them. -/
def reStripTrailFence (t : List Char) : List Char :=
  if (S "```").isSuffixOf t then dropTrailWs (dropRight 3 t) else t

/-- The cleaning stage of `ai_ml/text_extraction.extract_syllabus_info`
(lines 197-202) and of `ai_ml/api.extract_syllabus`: regex-based fence
stripping applied only when the stripped text starts with a fence. -/
def teClean (raw : List Char) : List Char :=
  let t := pystrip raw
  if (S "```").isPrefixOf t then reStripTrailFence (reStripLeadFence t) else t

/-- Outcome of the response-parsing stage of
`ai_ml/text_extraction.extract_syllabus_info`: either the parsed data or
the error object `{"error": ..., "raw_response": response.text[:500]}`. -/
inductive TEParseResult where
  | ok : JVal → TEParseResult
  | errObj : List Char → List Char → TEParseResult

/-- The response-parsing stage of
`ai_ml/text_extraction.extract_syllabus_info` (lines 193-210): clean,
parse once, and on failure return an error object carrying the first 500
characters of the raw response. -/
def teParseResponse (raw : List Char) : TEParseResult :=
  match jloads (teClean raw) with
  | some v => .ok v
  | none => .errObj (S "Failed to parse AI response") (raw.take 500)

/-! ## PDF text extraction

The two library calls are abstracted as oracles: `pages` holds what
`page.extract_text()` returns for each page of the document (`none`
models a page with no text layer, pdfplumber's `None`), and `images`
holds what `pytesseract.image_to_string` returns for each rasterized
page.  A `none` at the outer level models the helper's `try` block
catching an exception, in which case the helper returns the empty
string. -/

/-- `main._extract_with_pdfplumber`: join the truthy page texts with
newlines; any exception yields the empty string. -/
def extractWithPdfplumber (pages : Option (List (Option (List Char)))) : List Char :=
  match pages with
  | none => []
  | some ps => List.intercalate [ '\n' ] ((ps.filterMap id).filter (fun p => p ≠ []))

/-- `main._extract_with_ocr`: join the stripped, non-blank OCR texts of
the 300-DPI page images with newlines; any exception yields the empty
string. -/
def extractWithOcr (images : Option (List (List Char))) : List Char :=
  match images with
  | none => []
  | some imgs => List.intercalate [ '\n' ] ((imgs.map pystrip).filter (fun p => p ≠ []))

/-- `main.extract_text`: fail when the path does not exist, try
pdfplumber, escalate to OCR when the trimmed text has fewer than 50
characters, and otherwise return the best available text (possibly
empty).  The boolean in the result records whether the OCR fallback ran. -/
def extract_text (pathExists : Bool) (pages : Option (List (Option (List Char))))
    (images : Option (List (List Char))) : Except (List Char) (List Char × Bool) :=
  if ¬ pathExists then .error (S "PDF file not found")
  else
    let text := extractWithPdfplumber pages
    if text ≠ [] ∧ 50 ≤ (pystrip text).length then .ok (pystrip text, false)
    else
      let ocr := extractWithOcr images
      if ocr ≠ [] ∧ 50 ≤ (pystrip ocr).length then .ok (pystrip ocr, true)
      else .ok (if ocr ≠ [] then pystrip ocr else [], true)

/-- The pdfplumber phase of `ai_ml/text_extraction.extract_text_from_pdf`:
`text += page_text + "\n"` for every truthy page text. -/
def tePdfText (pages : List (Option (List Char))) : List Char :=
  ((pages.filterMap id).filter (fun p => p ≠ [])).foldl (fun acc p => acc ++ p ++ [ '\n' ]) []

/-- `ai_ml/text_extraction.extract_text_from_pdf`: one big `try` block
(modelled by `fails`) returning the empty string on any exception;
otherwise the pdfplumber text when its trimmed length reaches 50, else
that text with every OCR page appended. -/
def extract_text_from_pdf (fails : Bool) (pages : List (Option (List Char)))
    (images : List (List Char)) : List Char :=
  if fails then []
  else
    let text := tePdfText pages
    if 50 ≤ (pystrip text).length then text
    else images.foldl (fun acc p => acc ++ p ++ [ '\n' ]) text

/-! ## Study schedule estimation (`ai_ml/study_estimator.py`)

Courses are the structured dictionaries produced by extraction; each
`.get(key, default)` of the source becomes an `Option` with the same
default. -/

/-- One chapter dictionary; `weekly_hours` missing means the estimator's
default of 2 applies. -/
structure Chapter where
  name : List Char
  weekly_hours : Option Int

/-- One homework dictionary. -/
structure Homework where
  title : Option (List Char)
  due_date : Option (List Char)

/-- One exam dictionary (its `type` doubles as the deadline title). -/
structure Exam where
  kind : Option (List Char)
  date : Option (List Char)

/-- One project dictionary. -/
structure Project where
  title : Option (List Char)
  due_date : Option (List Char)

/-- One course dictionary. -/
structure Course where
  course_name : Option (List Char)
  chapters : List Chapter
  homework : List Homework
  exams : List Exam
  projects : List Project

/-- A deadline record `{date, type, title, course, priority}` as built by
`collect_deadlines`. -/
structure Deadline where
  date : List Char
  dtype : List Char
  title : List Char
  course : List Char
  priority : List Char
deriving DecidableEq

/-- Weekly hours of one course:
`sum(chapter.get('weekly_hours', 2) for chapter in course.get('chapters', []))`. -/
def courseWeeklyHours (c : Course) : Int :=
  (c.chapters.map (fun ch => ch.weekly_hours.getD 2)).sum

/-- `total_weekly_hours` of `estimate_study_schedule`: the double sum
over courses and chapters. -/
def totalWeeklyHours (courses : List Course) : Int :=
  (courses.map courseWeeklyHours).sum

/-- The deadline records of one course, in source order: homework
(priority medium), then exams (priority high), then projects (priority
high). -/
def courseDeadlines (c : Course) : List Deadline :=
  let cname := c.course_name.getD (S "Unknown")
  c.homework.map (fun hw =>
      { date := hw.due_date.getD [], dtype := (S "homework"),
        title := hw.title.getD [], course := cname, priority := (S "medium") })
    ++ c.exams.map (fun ex =>
      { date := ex.date.getD [], dtype := (S "exam"),
        title := ex.kind.getD [], course := cname, priority := (S "high") })
    ++ c.projects.map (fun pj =>
      { date := pj.due_date.getD [], dtype := (S "project"),
        title := pj.title.getD [], course := cname, priority := (S "high") })

/-- The flattening loop of `collect_deadlines` before the sort. -/
def flattenDeadlines (courses : List Course) : List Deadline :=
  (courses.map courseDeadlines).flatten

/-- The sort key order of `deadlines.sort(key=lambda x: x.get('date', ''))`. -/
def deadlineLe (a b : Deadline) : Prop := strLe a.date b.date = true

instance : DecidableRel deadlineLe :=
  fun a b => inferInstanceAs (Decidable (strLe a.date b.date = true))

/-- `collect_deadlines`: flatten, then a stable sort ascending by the
date string (Python `list.sort` is stable; `List.insertionSort` is the
stable sort of the library). -/
def collect_deadlines (courses : List Course) : List Deadline :=
  List.insertionSort deadlineLe (flattenDeadlines courses)

/-- One allocation entry of the daily schedule. -/
structure DayEntry where
  course : List Char
  hours : ℚ
  focus : List Char

/-- Python float division, which raises `ZeroDivisionError` on a zero
divisor; modelled over the rationals. -/
def pydiv (a : ℚ) (b : ℚ) : Option ℚ :=
  if b = 0 then none else some (a / b)

/-- Python `round(x, 1)` (the code's banker's rounding on binary floats
is approximated by rational rounding; no theorem depends on the rounded
value). -/
def round1 (q : ℚ) : ℚ := (round (q * 10) : ℤ) / 10

/-- The seven day keys, in the insertion order of the source dict. -/
def weekDays : List (List Char) :=
  [S "monday", S "tuesday", S "wednesday", S "thursday", S "friday",
   S "saturday", S "sunday"]

/-- `generate_daily_schedule`: for each day, one entry per course with
`total_hours / 7 / len(courses)` hours; the per-course division sits
inside the loop over courses, so an empty course list never divides. -/
def generate_daily_schedule (courses : List Course) (total : Int) :
    Option (List (List Char × List DayEntry)) :=
  let hoursPerDay : ℚ := (total : ℚ) / 7
  weekDays.mapM (fun day =>
    (courses.mapM (fun c =>
      (pydiv hoursPerDay (courses.length : ℚ)).map (fun q =>
        { course := c.course_name.getD (S "Unknown"), hours := round1 q,
          focus := (S "Study and assignments") : DayEntry }))).map
      (fun entries => (day, entries)))

/-- One row of the weekly schedule. -/
structure WeeklyRow where
  course_name : List Char
  weekly_hours : Int
  chapters : Nat
  assignments : Nat
  exams : Nat
  projects : Nat

/-- The weekly schedule: total hours plus one row per course. -/
structure WeeklySchedule where
  total_hours : Int
  courses : List WeeklyRow

/-- `generate_weekly_schedule`. -/
def generate_weekly_schedule (courses : List Course) : WeeklySchedule :=
  let rows := courses.map (fun c =>
    { course_name := c.course_name.getD (S "Unknown"),
      weekly_hours := courseWeeklyHours c,
      chapters := c.chapters.length,
      assignments := c.homework.length,
      exams := c.exams.length,
      projects := c.projects.length : WeeklyRow })
  { total_hours := (rows.map WeeklyRow.weekly_hours).sum, courses := rows }

/-- The combined plan returned by `estimate_study_schedule`. -/
structure StudyPlan where
  total_weekly_hours : Int
  daily_schedule : List (List Char × List DayEntry)
  weekly_schedule : WeeklySchedule
  deadlines : List Deadline
  courses : List Course

/-- `estimate_study_schedule`: total hours, daily schedule, weekly
schedule, sorted deadlines; `none` models an uncaught
`ZeroDivisionError`. -/
def estimate_study_schedule (courses : List Course) : Option StudyPlan :=
  let total := totalWeeklyHours courses
  match generate_daily_schedule courses total with
  | none => none
  | some daily =>
    some { total_weekly_hours := total,
           daily_schedule := daily,
           weekly_schedule := generate_weekly_schedule courses,
           deadlines := collect_deadlines courses,
           courses := courses }

/-! ## Shape validation (`ai_ml/gemini_extractor.validate_extraction_data`)

Validation inspects arbitrary parsed values, so it is modelled over an
untyped Python-value type with Python truthiness. -/

/-- Python values as they arrive from `json.loads`. -/
inductive PyVal where
  | pynone : PyVal
  | pybool : Bool → PyVal
  | pyint : Int → PyVal
  | pystr : List Char → PyVal
  | pylist : List PyVal → PyVal
  | pydict : List (List Char × PyVal) → PyVal

/-- Python truthiness of such a value. -/
def truthy : PyVal → Bool
  | .pynone => false
  | .pybool b => b
  | .pyint n => n ≠ 0
  | .pystr s => s ≠ []
  | .pylist xs => ¬ xs.isEmpty
  | .pydict kvs => ¬ kvs.isEmpty

/-- `isinstance(v, dict)`. -/
def isDict : PyVal → Bool
  | .pydict _ => true
  | _ => false

/-- `isinstance(v, list)`. -/
def isList : PyVal → Bool
  | .pylist _ => true
  | _ => false

/-- `key in data` for a dict's entry list. -/
def hasKey (kvs : List (List Char × PyVal)) (k : List Char) : Bool :=
  kvs.any (fun p => p.1 = k)

/-- `data.get(key, default)`. -/
def pyGet (kvs : List (List Char × PyVal)) (k : List Char) (dflt : PyVal) : PyVal :=
  match kvs.find? (fun p => p.1 = k) with
  | some p => p.2
  | none => dflt

/-- The five keys whose values must be lists. -/
def listKeys : List (List Char) :=
  [S "chapters", S "homework", S "exams", S "projects", S "academic_dates"]

/-- The `for key in list_keys` loop of `validate_extraction_data`. -/
def checkListShapes (kvs : List (List Char × PyVal)) : List (List Char) → Bool
  | [] => true
  | k :: ks =>
    if ¬ isList (pyGet kvs k (.pylist [])) then false
    else checkListShapes kvs ks

/-- `validate_extraction_data`: require a dict with `course_name`, reject
a truthy non-dict `professor`, and require each of the five list keys to
hold a list when present. -/
def validate_extraction_data (data : PyVal) : Bool :=
  match data with
  | .pydict kvs =>
    if ¬ hasKey kvs (S "course_name") then false
    else
      let professor := pyGet kvs (S "professor") (.pydict [])
      if truthy professor && ¬ isDict professor then false
      else checkListShapes kvs listKeys
  | _ => false

/-! ## Upload endpoints

Only the request-validation phase is concrete in the source; the model
call, the temp-file plumbing and the document store are oracles, passed
in as parameters that the guards must not consume. -/

/-- An HTTP-level outcome: an `HTTPException(status, detail)` or a
success payload. -/
inductive HttpOutcome where
  | httpError : Nat → List Char → HttpOutcome
  | success : JVal → HttpOutcome

/-- Does a filename end in the literal suffix `.pdf`? -/
def endsWithPdf (filename : List Char) : Bool :=
  (S ".pdf").isSuffixOf filename

/-- `ai_ml/api.extract_syllabus` (the `/extract` upload route): reject a
filename not ending in `.pdf` with 400, reject a missing API key with
500, then hand the PDF to the model and parse its reply with the regex
fence-stripping and `json.loads`; a parse failure (or the metadata
insertion hitting a non-object) surfaces as a 500. -/
def extract_syllabus (filename : List Char) (apiKeyConfigured : Bool)
    (modelReply : List Char) : HttpOutcome :=
  if ¬ endsWithPdf filename then
    .httpError 400 (S "Only PDF files are supported")
  else if ¬ apiKeyConfigured then
    .httpError 500 (S "GEMINI_API_KEY not configured")
  else
    match jloads (teClean modelReply) with
    | some (.jobj fields) =>
      .success (.jobj (fields ++
        [((S "metadata"), .jobj [((S "filename"), .jstr filename)])]))
    | _ => .httpError 500 (S "Error processing syllabus")

/-- `legacy/backend/routers/upload.upload_syllabus`: the filename check
is case-insensitive (`file.filename.lower().endswith('.pdf')`), then an
empty upload is rejected, then the parsed data from the AI service
(oracle `parsed`) is persisted and returned. -/
def upload_syllabus (filename : List Char) (fileBytesLen : Nat)
    (parsed : JVal) : HttpOutcome :=
  if ¬ endsWithPdf (pylower filename) then
    .httpError 400 (S "Only PDF files are supported")
  else if fileBytesLen = 0 then
    .httpError 400 (S "Empty file provided")
  else
    .success parsed

/-! ## Concrete test data -/

/-- Does `needle` occur contiguously inside `hay`?  (Python `needle in hay`
on strings.) -/
def containsSlice (needle hay : List Char) : Bool :=
  hay.tails.any (fun t => needle.isPrefixOf t)

/-- A course holding exactly one homework entry — the shape used by the
deadline-sorting example. -/
def oneHwCourse (n d : String) : Course :=
  { course_name := some (S n), chapters := [],
    homework := [{ title := some (S "HW"), due_date := some (S d) }],
    exams := [], projects := [] }

/-- The homework deadline record `oneHwCourse` gives rise to. -/
def hwDeadline (d n : String) : Deadline :=
  { date := S d, dtype := S "homework", title := S "HW", course := S n,
    priority := S "medium" }

/-- The model reply of the brace-slicing example: prose around a JSON
object. -/
def proseWrappedReply : List Char :=
  (S "Here you go: ") ++ '{' :: ((S "\"course_name\":\"X\"") ++ '}' :: (S " Thanks!"))

/-- A reply wrapped in a bare (untagged) code fence. -/
def bareFenceReply : List Char :=
  (S "```") ++ '\n' :: ('{' :: ((S "\"course_name\":\"X\"") ++ '}' :: ('\n' :: (S "```"))))

/-- A reply wrapped in a fence tagged `json`. -/
def jsonFenceReply : List Char :=
  (S "```json") ++ '\n' :: (('{' :: ((S "\"course_name\":\"X\"") ++ [ '}' ])) ++ '\n' :: (S "```"))

/-- A reply with no JSON content at all. -/
def proseOnlyReply : List Char :=
  S "Sorry, I cannot help with that request."

/-! ## Helper lemmas -/

theorem strLe_nil_left (s : List Char) : strLe [] s = true := rfl

theorem strLe_total : ∀ a b : List Char, strLe a b = true ∨ strLe b a = true
  | [], _ => Or.inl rfl
  | _ :: _, [] => Or.inr rfl
  | a :: as, b :: bs => by
    by_cases h1 : a.toNat < b.toNat
    · left
      simp [strLe, h1]
    · by_cases h2 : b.toNat < a.toNat
      · right
        simp [strLe, h2]
      · have ih := strLe_total as bs
        rcases ih with ih | ih
        · left
          simpa [strLe, h1, h2] using ih
        · right
          simpa [strLe, h1, h2] using ih

theorem strLe_trans : ∀ a b c : List Char,
    strLe a b = true → strLe b c = true → strLe a c = true
  | [], _, _, _, _ => rfl
  | _ :: _, [], _, h1, _ => by simp [strLe] at h1
  | _ :: _, _ :: _, [], _, h2 => by simp [strLe] at h2
  | a :: as, b :: bs, c :: cs, h1, h2 => by
    rcases Nat.lt_trichotomy a.toNat b.toNat with hab | hab | hab <;>
      rcases Nat.lt_trichotomy b.toNat c.toNat with hbc | hbc | hbc
    · simp [strLe, show a.toNat < c.toNat by omega]
    · simp [strLe, show a.toNat < c.toNat by omega]
    · simp [strLe, hab, show ¬ b.toNat < a.toNat by omega] at h1
      simp [strLe, show ¬ b.toNat < c.toNat by omega, hbc] at h2
    · simp [strLe, show a.toNat < c.toNat by omega]
    · have h1' : strLe as bs = true := by
        simpa [strLe, show ¬ a.toNat < b.toNat by omega,
          show ¬ b.toNat < a.toNat by omega] using h1
      have h2' : strLe bs cs = true := by
        simpa [strLe, show ¬ b.toNat < c.toNat by omega,
          show ¬ c.toNat < b.toNat by omega] using h2
      simpa [strLe, show ¬ a.toNat < c.toNat by omega,
        show ¬ c.toNat < a.toNat by omega] using strLe_trans as bs cs h1' h2'
    · simp [strLe, show ¬ b.toNat < c.toNat by omega, hbc] at h2
    · simp [strLe, show ¬ a.toNat < b.toNat by omega, hab] at h1
    · simp [strLe, show ¬ a.toNat < b.toNat by omega, hab] at h1
    · simp [strLe, show ¬ a.toNat < b.toNat by omega, hab] at h1

instance : IsTotal Deadline deadlineLe :=
  ⟨fun a b => strLe_total a.date b.date⟩

instance : IsTrans Deadline deadlineLe :=
  ⟨fun a b c => strLe_trans a.date b.date c.date⟩

theorem dropWhile_cons_nonws {c : Char} (h : pyWs c = false) (l : List Char) :
    List.dropWhile pyWs (c :: l) = c :: l := by
  simp [List.dropWhile_cons, h]

theorem dropTrailWs_append_nonws {c : Char} (h : pyWs c = false) (l : List Char) :
    dropTrailWs (l ++ [c]) = l ++ [c]  := by
  simp [dropTrailWs, List.dropWhile_cons, h]

theorem dropTrailWs_append_ws {c : Char} (h : pyWs c = true) (l : List Char) :
    dropTrailWs (l ++ [c]) = dropTrailWs l := by
  simp [dropTrailWs, List.dropWhile_cons, h]

theorem pystrip_cons_ws {c : Char} (h : pyWs c = true) (l : List Char) :
    pystrip (c :: l) = pystrip l := by
  simp [pystrip, List.dropWhile_cons, h]

theorem pystrip_append_ws {c : Char} (h : pyWs c = true) (l : List Char) :
    pystrip (l ++ [c]) = pystrip l := by
  unfold pystrip
  rw [List.dropWhile_append]
  by_cases he : (List.dropWhile pyWs l).isEmpty
  · simp [he, List.dropWhile_cons, h, dropTrailWs,
      List.isEmpty_iff.mp he]
  · simp only [he, if_false, Bool.false_eq_true]
    exact dropTrailWs_append_ws h _

theorem pystrip_sandwich {c1 c2 : Char} (h1 : pyWs c1 = false) (h2 : pyWs c2 = false)
    (l : List Char) : pystrip (c1 :: (l ++ [c2])) = c1 :: (l ++ [c2]) := by
  unfold pystrip
  rw [show (c1 :: (l ++ [c2])) = (c1 :: l) ++ [c2] by simp,
    show List.dropWhile pyWs ((c1 :: l) ++ [c2]) = (c1 :: l) ++ [c2] from ?_,
    dropTrailWs_append_nonws h2]
  rw [show (c1 :: l) ++ [c2] = c1 :: (l ++ [c2]) by simp]
  exact dropWhile_cons_nonws h1 _

theorem mapM_option_of_map {α β : Type} (g : α → β) :
    ∀ l : List α, l.mapM (fun a => some (g a)) = some (l.map g)
  | [] => rfl
  | a :: l => by
    rw [List.mapM_cons, mapM_option_of_map g l]
    rfl

theorem checkListShapes_false_of_mem {kvs : List (List Char × PyVal)} :
    ∀ {ks : List (List Char)} {k : List Char}, k ∈ ks →
      isList (pyGet kvs k (.pylist [])) = false → checkListShapes kvs ks = false
  | k' :: ks, k, hmem, hfail => by
    rcases List.mem_cons.mp hmem with rfl | hmem'
    · simp [checkListShapes, hfail]
    · by_cases hk' : isList (pyGet kvs k' (.pylist [])) = false
      · simp [checkListShapes, hk']
      · simp only [checkListShapes, Bool.not_eq_false] at hk' ⊢
        simp [hk', checkListShapes_false_of_mem hmem' hfail]

theorem dropRight_three_fence (inner : List Char) :
    dropRight 3 ('\n' :: (inner ++ [ '\n', '`', '`', '`' ])) = '\n' :: (inner ++ [ '\n' ]) := by
  unfold dropRight
  rw [show ('\n' :: (inner ++ [ '\n', '`', '`', '`' ]))
      = (('\n' :: inner) ++ [ '\n' ]) ++ [ '`', '`', '`' ] by simp]
  rw [show ((('\n' :: inner) ++ [ '\n' ]) ++ [ '`', '`', '`' ]).length - 3
      = (('\n' :: inner) ++ [ '\n' ]).length by simp]
  rw [List.take_left]
  simp

theorem fenceStrip_json_wrap (inner : List Char) :
    fenceStrip ((S "```json") ++ '\n' :: (inner ++ '\n' :: (S "```"))) = pystrip inner := by
  have hshape : (S "```json") ++ '\n' :: (inner ++ '\n' :: (S "```"))
      = '`' :: (('`' :: '`' :: 'j' :: 's' :: 'o' :: 'n' :: '\n' ::
        (inner ++ [ '\n', '`', '`' ])) ++ [ '`' ]) := by
    simp [S]
  have hshape2 : '`' :: (('`' :: '`' :: 'j' :: 's' :: 'o' :: 'n' :: '\n' ::
      (inner ++ [ '\n', '`', '`' ])) ++ [ '`' ])
    = '`' :: '`' :: '`' :: 'j' :: 's' :: 'o' :: 'n' :: '\n' ::
      (inner ++ [ '\n', '`', '`', '`' ]) := by
    simp
  have hpre : List.isPrefixOf (S "```json") ('`' :: '`' :: '`' :: 'j' :: 's' :: 'o' :: 'n' ::
      '\n' :: (inner ++ [ '\n', '`', '`', '`' ])) = true := by
    show List.isPrefixOf ('`' :: '`' :: '`' :: 'j' :: 's' :: 'o' :: 'n' :: []) _ = true
    simp [List.isPrefixOf]
  have hsuf : List.isSuffixOf (S "```") ('\n' :: (inner ++ [ '\n', '`', '`', '`' ])) = true := by
    show List.isPrefixOf ('`' :: '`' :: '`' :: []) _ = true
    simp [List.isPrefixOf, List.reverse_append]
  rw [hshape]
  simp only [fenceStrip]
  rw [@pystrip_sandwich '`' '`' rfl rfl]
  rw [hshape2]
  rw [if_pos hpre]
  rw [show List.drop 7 ('`' :: '`' :: '`' :: 'j' :: 's' :: 'o' :: 'n' :: '\n' ::
      (inner ++ [ '\n', '`', '`', '`' ])) = '\n' :: (inner ++ [ '\n', '`', '`', '`' ]) from rfl]
  rw [if_pos hsuf]
  rw [dropRight_three_fence]
  rw [@pystrip_cons_ws '\n' rfl, @pystrip_append_ws '\n' rfl]

theorem generate_daily_schedule_isSome (courses : List Course) (total : Int) :
    ∃ d, generate_daily_schedule courses total = some d := by
  unfold generate_daily_schedule
  rcases courses with _ | ⟨c, cs⟩
  · exact ⟨_, rfl⟩
  · have hlen : (((c :: cs).length : ℕ) : ℚ) ≠ 0 := by
      have h0 : (0 : ℚ) < (((c :: cs).length : ℕ) : ℚ) := by
        exact_mod_cast Nat.succ_pos cs.length
      exact ne_of_gt h0
    have hinner : ∀ c' : Course,
        (pydiv ((total : ℚ) / 7) (((c :: cs).length : ℕ) : ℚ)).map
          (fun q => ({ course := c'.course_name.getD (S "Unknown"),
                       hours := round1 q,
                       focus := S "Study and assignments" } : DayEntry))
        = some ({ course := c'.course_name.getD (S "Unknown"),
                  hours := round1 ((total : ℚ) / 7 / (((c :: cs).length : ℕ) : ℚ)),
                  focus := S "Study and assignments" } : DayEntry) := by
      intro c'
      rw [show pydiv ((total : ℚ) / 7) (((c :: cs).length : ℕ) : ℚ)
          = some ((total : ℚ) / 7 / (((c :: cs).length : ℕ) : ℚ)) from by
        unfold pydiv
        rw [if_neg hlen]]
      rfl
    simp only [hinner]
    have hmapc := mapM_option_of_map
      (fun c' : Course => ({ course := c'.course_name.getD (S "Unknown"),
                             hours := round1 ((total : ℚ) / 7 / (((c :: cs).length : ℕ) : ℚ)),
                             focus := S "Study and assignments" } : DayEntry)) (c :: cs)
    simp only [hmapc, Option.map_some']
    exact ⟨_, mapM_option_of_map _ weekDays⟩

theorem strLe_nil_right {x : List Char} (h : strLe x [] = true) : x = [] := by
  cases x with
  | nil => rfl
  | cons c cs => simp [strLe] at h

/-! ## Claim theorems -/

/-- C10: for the empty course list, `estimate_study_schedule` returns the
well-defined zero plan — total 0, seven empty day lists, an empty weekly
schedule with total 0, no deadlines — and in particular no
division-by-zero occurs (the per-course split sits inside the loop over
courses, which never runs). -/
theorem C10_empty_course_list_yields_zero_plan :
    estimate_study_schedule [] = some
      { total_weekly_hours := 0,
        daily_schedule := [((S "monday"), []), ((S "tuesday"), []), ((S "wednesday"), []),
                           ((S "thursday"), []), ((S "friday"), []), ((S "saturday"), []),
                           ((S "sunday"), [])],
        weekly_schedule := { total_hours := 0, courses := [] },
        deadlines := [],
        courses := [] } := rfl

/-- C5: for every course list, the deadlines are a permutation of the
flattening of homework/exam/project records (in course order), sorted
ascending by lexicographic comparison of the date string; entries whose
date is empty come first; and the three-course example with dates
2025-12-10 / 2025-09-01 / 2025-10-15 comes out in ascending order. -/
theorem C5_deadlines_flattened_and_sorted_by_date :
    (∀ courses : List Course,
        List.Perm (collect_deadlines courses) (flattenDeadlines courses)
        ∧ List.Sorted deadlineLe (collect_deadlines courses)
        ∧ List.Pairwise (fun a b => b.date = [] → a.date = []) (collect_deadlines courses))
    ∧ collect_deadlines [oneHwCourse "C1" "2025-12-10", oneHwCourse "C2" "2025-09-01",
        oneHwCourse "C3" "2025-10-15"]
      = [hwDeadline "2025-09-01" "C2", hwDeadline "2025-10-15" "C3",
         hwDeadline "2025-12-10" "C1"] := by
  constructor
  · intro courses
    refine ⟨List.perm_insertionSort _ _, List.sorted_insertionSort _ _, ?_⟩
    have hs := List.sorted_insertionSort deadlineLe (flattenDeadlines courses)
    exact List.Pairwise.imp (fun hab hb => strLe_nil_right (hb ▸ hab)) hs
  · rfl

/-- C6: the plan's `total_weekly_hours` is the sum over all chapters of
all courses of `weekly_hours` (missing values counting as 2), and this
total is invariant under permutation of the course list. -/
theorem C6_total_weekly_hours_sum_and_commutative :
    (∀ courses : List Course, ∃ plan, estimate_study_schedule courses = some plan ∧
        plan.total_weekly_hours
          = (courses.map (fun c => (c.chapters.map (fun ch => ch.weekly_hours.getD 2)).sum)).sum)
    ∧ (∀ cs cs' : List Course, List.Perm cs cs' →
        totalWeeklyHours cs = totalWeeklyHours cs') := by
  constructor
  · intro courses
    obtain ⟨d, hd⟩ := generate_daily_schedule_isSome courses (totalWeeklyHours courses)
    have hplan : estimate_study_schedule courses = some
        { total_weekly_hours := totalWeeklyHours courses,
          daily_schedule := d,
          weekly_schedule := generate_weekly_schedule courses,
          deadlines := collect_deadlines courses,
          courses := courses } := by
      simp only [estimate_study_schedule]
      rw [hd]
    exact ⟨_, hplan, rfl⟩
  · intro cs cs' h
    exact List.Perm.sum_eq (h.map courseWeeklyHours)

/-- Witness for C6 at concrete inputs: the plan of a one-course list
exists with the stated total, and swapping two concrete courses leaves
the total unchanged. -/
theorem C6_total_weekly_hours_witness :
    (∃ plan, estimate_study_schedule [oneHwCourse "C1" "2025-12-10"] = some plan ∧
        plan.total_weekly_hours
          = ([oneHwCourse "C1" "2025-12-10"].map
              (fun c => (c.chapters.map (fun ch => ch.weekly_hours.getD 2)).sum)).sum)
    ∧ totalWeeklyHours [oneHwCourse "C1" "2025-12-10", oneHwCourse "C2" "2025-09-01"]
      = totalWeeklyHours [oneHwCourse "C2" "2025-09-01", oneHwCourse "C1" "2025-12-10"] :=
  ⟨C6_total_weekly_hours_sum_and_commutative.1 [oneHwCourse "C1" "2025-12-10"],
   C6_total_weekly_hours_sum_and_commutative.2 _ _ (List.Perm.swap _ _ _)⟩

/-- C8 as amended: `extract_text` fails exactly when the path does not
exist (with the "not found" message); a page whose extraction yields
nothing behaves as an absent page and nothing propagates; and when
neither method reaches the 50-character threshold, the trimmed OCR text
(or the empty string when OCR yields nothing) is returned without an
error — the sub-threshold fast-path text is discarded, not kept as a
best available result (see the counterexample). -/
theorem C8_extract_raises_only_for_missing_path :
    (∀ pages images, extract_text false pages images = .error (S "PDF file not found"))
    ∧ (∀ pages images, ∃ r, extract_text true pages images = .ok r)
    ∧ (∀ xs ys, extractWithPdfplumber (some (xs ++ none :: ys))
        = extractWithPdfplumber (some (xs ++ ys)))
    ∧ (∀ pages images, (pystrip (extractWithPdfplumber pages)).length < 50 →
        (pystrip (extractWithOcr images)).length < 50 →
        extract_text true pages images
          = .ok ((if extractWithOcr images ≠ [] then pystrip (extractWithOcr images) else []),
              true)) := by
  refine ⟨fun pages images => by simp [extract_text], fun pages images => ?_,
    fun xs ys => ?_, fun pages images h1 h2 => ?_⟩
  · unfold extract_text
    simp only [not_true_eq_false, if_false]
    split
    · exact ⟨_, rfl⟩
    · split
      · exact ⟨_, rfl⟩
      · exact ⟨_, rfl⟩
  · simp [extractWithPdfplumber, List.filterMap_append]
  · have hc1 : ¬ (extractWithPdfplumber pages ≠ []
        ∧ 50 ≤ (pystrip (extractWithPdfplumber pages)).length) := fun hc => by omega
    have hc2 : ¬ (extractWithOcr images ≠ []
        ∧ 50 ≤ (pystrip (extractWithOcr images)).length) := fun hc => by omega
    simp only [extract_text, not_true_eq_false, if_false, hc1, hc2]

/-- Witness for C8 at concrete inputs: a document whose only page has no
text layer and whose rasterized page yields nothing makes both methods
miss the threshold, and extraction still returns the empty string. -/
theorem C8_extract_witness :
    extract_text true (some [none]) (some [[]]) = .ok ([], true) := by
  have h := C8_extract_raises_only_for_missing_path.2.2.2 (some [none]) (some [[]])
    (by decide) (by decide)
  simpa using h

/-- C8 counterexample: when both methods miss the threshold the code
does not return the best available result.  With a 40-character
fast-path page and no OCR text, extraction returns the empty string;
with a 10-character OCR text it returns those 10 characters; the
nonempty 40-character fast-path text is discarded in both runs. -/
theorem C8_counterexample_fast_text_discarded :
    (pystrip (extractWithPdfplumber (some [some (List.replicate 40 'a')]))).length = 40
    ∧ pystrip (extractWithPdfplumber (some [some (List.replicate 40 'a')])) ≠ []
    ∧ extract_text true (some [some (List.replicate 40 'a')]) (some []) = .ok ([], true)
    ∧ extract_text true (some [some (List.replicate 40 'a')]) (some [(S "short ocr!")])
      = .ok ((S "short ocr!"), true) :=
  ⟨by decide, by decide, rfl, rfl⟩

/-- C1 counterexample: a fast-path text of trimmed length 50 that carries
a leading blank.  `main.extract_text` returns the trimmed text, which
differs from the fast-path result, so the fast-path result is not
returned unchanged. -/
theorem C1_counterexample_fast_path_trimmed :
    50 ≤ (pystrip (extractWithPdfplumber (some [some (' ' :: List.replicate 50 'a')]))).length
    ∧ extract_text true (some [some (' ' :: List.replicate 50 'a')]) none
      = .ok (List.replicate 50 'a', false)
    ∧ extractWithPdfplumber (some [some (' ' :: List.replicate 50 'a')])
      ≠ List.replicate 50 'a' := ⟨by decide, rfl, by decide⟩

/-- C1 as amended: when the fast path's trimmed text reaches 50
characters, `main.extract_text` returns that trimmed text and never
invokes OCR (the flag is false and the images are not consumed), while
`ai_ml.extract_text_from_pdf` returns its fast-path text unchanged. -/
theorem C1_fast_path_result_when_threshold_met :
    (∀ pages images, 50 ≤ (pystrip (extractWithPdfplumber pages)).length →
        extract_text true pages images = .ok (pystrip (extractWithPdfplumber pages), false))
    ∧ (∀ pages images, 50 ≤ (pystrip (tePdfText pages)).length →
        extract_text_from_pdf false pages images = tePdfText pages) := by
  constructor
  · intro pages images h
    have hne : extractWithPdfplumber pages ≠ [] := by
      intro h0
      rw [h0] at h
      exact absurd h (by decide)
    simp [extract_text, hne, h]
  · intro pages images h
    simp [extract_text_from_pdf, h]

/-- Witness for C1 at concrete 50-character inputs. -/
theorem C1_fast_path_witness :
    extract_text true (some [some (' ' :: List.replicate 50 'a')]) none
      = .ok (pystrip (extractWithPdfplumber (some [some (' ' :: List.replicate 50 'a')])), false)
    ∧ extract_text_from_pdf false [some (List.replicate 50 'b')] [(S "ocr page")]
      = tePdfText [some (List.replicate 50 'b')] :=
  ⟨C1_fast_path_result_when_threshold_met.1 _ none (by decide),
   C1_fast_path_result_when_threshold_met.2 _ _ (by decide)⟩

/-- C2: when the direct parse of the cleaned reply fails, `normalize`
slices from the first opening brace to the last closing brace inclusive
and its result is exactly the outcome of parsing that substring; and the
prose-wrapped example recovers the object with course_name X. -/
theorem C2_brace_slice_recovery :
    (∀ raw s e, jloads (fenceStrip raw) = none →
        firstIdx '{' (fenceStrip raw) = some s →
        lastIdx '}' (fenceStrip raw) = some e →
        s < e + 1 →
        normalize raw
          = (match jloads (((fenceStrip raw).drop s).take (e + 1 - s)) with
             | some v => Except.ok v
             | none => Except.error parseFailMsg))
    ∧ normalize proseWrappedReply = .ok (.jobj [((S "course_name"), .jstr (S "X"))]) := by
  constructor
  · intro raw s e h0 h1 h2 h3
    simp only [normalize, h0, h1, h2]
    rw [if_pos h3]
  · rfl

/-- Witness for C2: a reply whose brace slice itself fails to parse runs
the full recovery path and ends in the parse error. -/
theorem C2_brace_slice_witness :
    normalize (S "see \x7bnot json\x7d end") = .error parseFailMsg := by
  have h := C2_brace_slice_recovery.1 (S "see \x7bnot json\x7d end") 4 13 rfl rfl rfl
    (by decide)
  simpa using h

/-- C3 counterexample: a reply wrapped in a bare (untagged) code fence
still begins with a fence marker, yet `analyze_syllabus_text` fails
instead of returning the inner object — only the `json`-tagged leading
fence is stripped. -/
theorem C3_counterexample_bare_fence :
    (S "```").isPrefixOf (pystrip bareFenceReply) = true
    ∧ analyze_syllabus_text bareFenceReply = .error parseFailMsg
    ∧ jloads ('{' :: ((S "\"course_name\":\"X\"") ++ [ '}' ]))
      = some (.jobj [((S "course_name"), .jstr (S "X"))]) := ⟨rfl, rfl, rfl⟩

/-- C3 as amended: replies whose cleaned text parses are returned by both
normalizers, and in particular a reply wrapped as a `json`-tagged fence
around any parseable text yields the parse of the inner text in both
normalizers; a bare leading fence is not stripped (see the
counterexample), though gemini_extractor may still recover via
brace-slicing. -/
theorem C3_json_tagged_fence_stripped :
    (∀ raw v, jloads (fenceStrip raw) = some v →
        normalize raw = .ok v ∧ analyze_syllabus_text raw = .ok v)
    ∧ (∀ inner v, jloads (pystrip inner) = some v →
        normalize ((S "```json") ++ '\n' :: (inner ++ '\n' :: (S "```"))) = .ok v
        ∧ analyze_syllabus_text ((S "```json") ++ '\n' :: (inner ++ '\n' :: (S "```")))
          = .ok v) := by
  constructor
  · intro raw v h
    constructor
    · simp only [normalize, h]
    · simp only [analyze_syllabus_text, h]
  · intro inner v h
    constructor
    · simp only [normalize, fenceStrip_json_wrap, h]
    · simp only [analyze_syllabus_text, fenceStrip_json_wrap, h]

/-- Witness for C3: the concrete `json`-tagged fenced reply parses to the
course_name X object in both normalizers. -/
theorem C3_json_tagged_fence_witness :
    normalize jsonFenceReply = .ok (.jobj [((S "course_name"), .jstr (S "X"))])
    ∧ analyze_syllabus_text jsonFenceReply
      = .ok (.jobj [((S "course_name"), .jstr (S "X"))]) :=
  C3_json_tagged_fence_stripped.2 ('{' :: ((S "\"course_name\":\"X\"") ++ [ '}' ])) _ rfl

/-- C4 counterexample: a reply on which both parse attempts fail makes
`normalize` raise the fixed parse diagnostic, and the first 500
characters of the raw reply do not occur in that payload. -/
theorem C4_counterexample_payload_lacks_raw :
    normalize proseOnlyReply = .error parseFailMsg
    ∧ containsSlice (proseOnlyReply.take 500) parseFailMsg = false := ⟨rfl, rfl⟩

/-- C4 as amended: every failure of `normalize` carries a payload that
begins with the fixed f-string prose `Failed to parse JSON response: `
(the rest is the decode error's own input-varying diagnostic, which
never embeds the reply — the raw response is only logged, see the
counterexample); the 500-character excerpt of the raw reply appears
instead in the error object of
`ai_ml/text_extraction.extract_syllabus_info`, whose parse stage has no
brace-slice recovery. -/
theorem C4_parse_error_diagnostics :
    (∀ raw m, normalize raw = .error m →
        (S "Failed to parse JSON response: ").isPrefixOf m = true)
    ∧ (∀ raw, jloads (teClean raw) = none →
        teParseResponse raw = .errObj (S "Failed to parse AI response") (raw.take 500)) := by
  constructor
  · intro raw m hX
    have hm : m = parseFailMsg := by
      simp only [normalize] at hX
      split at hX
      · exact Except.noConfusion hX
      · split at hX
        · split at hX
          · split at hX
            · exact Except.noConfusion hX
            · injection hX with h
              exact h.symm
          · injection hX with h
            exact h.symm
        · injection hX with h
          exact h.symm
    rw [hm]
    rfl
  · intro raw h
    simp only [teParseResponse, h]

/-- Witness for C4: the prose-only reply fails both stages of both
normalizers; the extractor's payload starts with the fixed prose prefix
and the text-extraction error object carries the 500-character excerpt. -/
theorem C4_parse_error_witness :
    (S "Failed to parse JSON response: ").isPrefixOf parseFailMsg = true
    ∧ teParseResponse proseOnlyReply
      = .errObj (S "Failed to parse AI response") (proseOnlyReply.take 500) :=
  ⟨C4_parse_error_diagnostics.1 proseOnlyReply parseFailMsg rfl,
   C4_parse_error_diagnostics.2 proseOnlyReply rfl⟩

/-- C7 counterexample: a present `professor` value that is not a mapping
but is falsy (the empty string) passes validation — the code only rejects
truthy non-dict professors, so "returns false when a present professor
field is not a key-value mapping" fails as stated. -/
theorem C7_counterexample_falsy_professor :
    validate_extraction_data (.pydict [((S "course_name"), .pystr (S "X")),
      ((S "professor"), .pystr [])]) = true
    ∧ isDict (.pystr []) = false := ⟨rfl, rfl⟩

/-- C7 as amended: validation is a total boolean check that returns false
when the course identifier is missing, when the `professor` value is
truthy and not a mapping (a falsy non-mapping passes), when any of the
five list-valued keys holds a non-list, and for any non-dict input; date
strings are never inspected, so malformed dates validate. -/
theorem C7_validate_shape_checks :
    (∀ kvs, hasKey kvs (S "course_name") = false →
        validate_extraction_data (.pydict kvs) = false)
    ∧ (∀ kvs, truthy (pyGet kvs (S "professor") (.pydict [])) = true →
        isDict (pyGet kvs (S "professor") (.pydict [])) = false →
        validate_extraction_data (.pydict kvs) = false)
    ∧ (∀ kvs k, k ∈ listKeys → isList (pyGet kvs k (.pylist [])) = false →
        validate_extraction_data (.pydict kvs) = false)
    ∧ (∀ v, validate_extraction_data v = true → isDict v = true)
    ∧ validate_extraction_data (.pydict [((S "course_name"), .pystr (S "CS")),
        ((S "homework"), .pylist [.pydict [((S "title"), .pystr (S "HW1")),
          ((S "due_date"), .pystr (S "not-a-date"))]])]) = true := by
  refine ⟨fun kvs h => by simp [validate_extraction_data, h],
    fun kvs h1 h2 => ?_, fun kvs k hmem hfail => ?_, fun v => ?_, rfl⟩
  · unfold validate_extraction_data
    by_cases hk : hasKey kvs (S "course_name") = false
    · simp [hk]
    · simp only [Bool.not_eq_false] at hk
      simp [hk, h1, h2]
  · simp only [validate_extraction_data]
    by_cases hk : hasKey kvs (S "course_name") = false
    · simp [hk]
    · simp only [Bool.not_eq_false] at hk
      rw [if_neg (by simp [hk])]
      split
      · rfl
      · exact checkListShapes_false_of_mem hmem hfail
  · cases v <;> first
      | (intro _; rfl)
      | (intro hv; exact Bool.noConfusion hv)

/-- Witness for C7 at concrete inputs: an empty dict (no course name), a
truthy string professor, and a string-valued chapters field are each
rejected. -/
theorem C7_validate_witness :
    validate_extraction_data (.pydict []) = false
    ∧ validate_extraction_data (.pydict [((S "course_name"), .pystr (S "X")),
        ((S "professor"), .pystr (S "Bob"))]) = false
    ∧ validate_extraction_data (.pydict [((S "course_name"), .pystr (S "X")),
        ((S "chapters"), .pystr (S "nope"))]) = false :=
  ⟨C7_validate_shape_checks.1 [] rfl,
   C7_validate_shape_checks.2.1 _ rfl rfl,
   C7_validate_shape_checks.2.2.1 _ (S "chapters") (by decide) rfl⟩

/-- C9 counterexample: the legacy upload route lowercases the filename
before the `.pdf` check, so `syllabus.PDF` — whose filename does not end
in the literal `.pdf` — is accepted rather than rejected with 400. -/
theorem C9_counterexample_uppercase_pdf_accepted :
    endsWithPdf (S "syllabus.PDF") = false
    ∧ upload_syllabus (S "syllabus.PDF") 1 .jnull = .success .jnull := ⟨rfl, rfl⟩

/-- C9 as amended: the ai_ml extract route rejects any filename not
ending in `.pdf` (case-sensitively) with 400 before the key check, the
model call or parsing; the legacy upload route applies the same rejection
to the lowercased filename, and accepts non-empty uploads whose
lowercased filename ends in `.pdf`. -/
theorem C9_upload_guard_rejects_non_pdf :
    (∀ fn key reply, endsWithPdf fn = false →
        extract_syllabus fn key reply = .httpError 400 (S "Only PDF files are supported"))
    ∧ (∀ fn n parsed, endsWithPdf (pylower fn) = false →
        upload_syllabus fn n parsed = .httpError 400 (S "Only PDF files are supported"))
    ∧ (∀ fn n parsed, endsWithPdf (pylower fn) = true → n ≠ 0 →
        upload_syllabus fn n parsed = .success parsed) := by
  refine ⟨fun fn key reply h => by simp [extract_syllabus, h],
    fun fn n parsed h => by simp [upload_syllabus, h],
    fun fn n parsed h1 h2 => by simp [upload_syllabus, h1, h2]⟩

/-- Witness for C9 at concrete inputs: a `.txt` upload is rejected by
both routes, and a non-empty `.PDF` upload passes the legacy route. -/
theorem C9_upload_guard_witness :
    extract_syllabus (S "notes.txt") true proseOnlyReply
      = .httpError 400 (S "Only PDF files are supported")
    ∧ upload_syllabus (S "notes.txt") 1 .jnull
      = .httpError 400 (S "Only PDF files are supported")
    ∧ upload_syllabus (S "a.PDF") 1 .jnull = .success .jnull :=
  ⟨C9_upload_guard_rejects_non_pdf.1 _ true proseOnlyReply rfl,
   C9_upload_guard_rejects_non_pdf.2.1 _ 1 .jnull rfl,
   C9_upload_guard_rejects_non_pdf.2.2 _ 1 .jnull rfl (by decide)⟩

end Syllabus
